import Mathlib

/-!
Verification of the sybl client library (Python sources under `src/sybl/`):
message framing, message parsing, the job negotiation policy, dataset
preparation, the credential store, and the client session state machine.

Each Python function used by a claim is embedded as a Lean definition:
byte strings become `List Nat` (each element a byte value), Python dicts
become association lists, raised exceptions become `Except`/`Option`
error values, and socket reads become explicit stream or chunk-sequence
arguments.
-/

namespace SyblVerify

/-! ### Message framing

From `sybl_client.py` (`Sybl._send_message`, `Sybl._read_message`) and the
identical code in `authenticate.py` (`Authentication._send_message`,
`Authentication._read_message`).
-/

/-- `(len(data)).to_bytes(4, byteorder="big")`: the 4-byte big-endian length
prefix for a payload of length `n`. -/
def lenBytes (n : Nat) : List Nat :=
  [n / 2 ^ 24 % 256, n / 2 ^ 16 % 256, n / 2 ^ 8 % 256, n % 256]

/-- `struct.unpack(">I", size_bytes)[0]`: big-endian interpretation of the
size bytes. -/
def unpackBE (bs : List Nat) : Nat :=
  bs.foldl (fun acc b => acc * 256 + b) 0

/-- `Sybl._send_message` at the byte level: the bytes written to the socket
are the 4-byte big-endian length prefix followed by the encoded payload
(`self._sock.send(length + encoded)`). -/
def sendMessageBytes (payload : List Nat) : List Nat :=
  lenBytes payload.length ++ payload

/-- The accumulation loop of `_read_message` for `size > 4096`, reading from
a deterministic stream `s` in which each `recv(4096)` returns the next
`min 4096 (remaining)` buffered bytes:

    while remaining_size > 0:
        chunk = self._sock.recv(4096)
        buf.extend(chunk)
        remaining_size -= 4096

`remaining` is a `Nat`; Python's signed `remaining_size` going `<= 0` is the
saturating subtraction reaching `0`. -/
def readLoopStream (remaining : Nat) (s : List Nat) : List Nat :=
  if remaining = 0 then []
  else s.take 4096 ++ readLoopStream (remaining - 4096) (s.drop 4096)
termination_by remaining
decreasing_by simp_wf; omega

/-- The same accumulation loop, with the chunk returned by each successive
`recv(4096)` call given explicitly: a blocking `recv(4096)` may legally
return any chunk of at most 4096 bytes of the pending stream data. After the
list is exhausted further calls return no bytes. -/
def readLoopChunks (remaining : Nat) (chunks : List (List Nat)) : List Nat :=
  if remaining = 0 then []
  else chunks.headD [] ++ readLoopChunks (remaining - 4096) chunks.tail
termination_by remaining
decreasing_by simp_wf; omega

/-- `_read_message` at the byte level over a deterministic stream: read the
4-byte prefix, then the payload (chunked when the size exceeds 4096), and
return the bytes that are handed to `json.loads`. `none` models the
`struct.error` raised when fewer than 4 size bytes are available. -/
def readMessageBytes (s : List Nat) : Option (List Nat) :=
  if s.length < 4 then none
  else
    let size := unpackBE (s.take 4)
    let rest := s.drop 4
    if 4096 < size then some (readLoopStream size rest)
    else some (rest.take size)

/-- A delivery schedule for claim analysis: five successive `recv(4096)`
calls each return 1000 bytes (legal short reads for a stream holding a
5000-byte payload delivered in 1000-byte segments). -/
def shortReadChunks : List (List Nat) :=
  [List.replicate 1000 0, List.replicate 1000 0, List.replicate 1000 0,
    List.replicate 1000 0, List.replicate 1000 0]

theorem unpackBE_lenBytes (n : Nat) (h : n < 2 ^ 32) :
    unpackBE (lenBytes n) = n := by
  simp only [unpackBE, lenBytes, List.foldl]
  omega

theorem readLoopStream_of_le (r : Nat) (s : List Nat) (h : s.length ≤ r) :
    readLoopStream r s = s := by
  induction r using Nat.strong_induction_on generalizing s with
  | _ r ih =>
    rw [readLoopStream]
    split
    · next hr =>
      subst hr
      exact (List.eq_nil_of_length_eq_zero (Nat.le_zero.mp h)).symm
    · next hr =>
      have hlen : (s.drop 4096).length ≤ r - 4096 := by
        simp only [List.length_drop]
        omega
      rw [ih (r - 4096) (Nat.sub_lt (Nat.pos_of_ne_zero hr) (by norm_num)) _ hlen]
      exact List.take_append_drop 4096 s

theorem readLoopChunks_zero (chunks : List (List Nat)) :
    readLoopChunks 0 chunks = [] := by
  rw [readLoopChunks]
  simp

theorem readLoopChunks_pos (r : Nat) (chunks : List (List Nat)) (h : r ≠ 0) :
    readLoopChunks r chunks =
      chunks.headD [] ++ readLoopChunks (r - 4096) chunks.tail := by
  rw [readLoopChunks]
  simp [h]

/-- C1: the chunked read loop counts iterations, not bytes: `remaining_size`
is decremented by 4096 whatever `len(chunk)` was. On a 5000-byte frame
delivered in 1000-byte segments the loop stops after two `recv` calls with
2000 of the 5000 payload bytes accumulated, then hands the truncated buffer
to `json.loads`. Every chunk in the schedule is a legal `recv(4096)` return
(1000 bytes, at most 4096). -/
theorem readLoopChunks_undercount :
    (readLoopChunks 5000 shortReadChunks).length = 2000 ∧
      (readLoopChunks 5000 shortReadChunks).length ≠ 5000 ∧
      shortReadChunks.map List.length = [1000, 1000, 1000, 1000, 1000] := by
  have hc : readLoopChunks 5000 shortReadChunks =
      List.replicate 1000 (0 : Nat) ++ List.replicate 1000 0 := by
    unfold shortReadChunks
    rw [readLoopChunks_pos _ _ (by norm_num),
      show (5000 : Nat) - 4096 = 904 from by norm_num,
      List.tail_cons, List.headD_cons,
      readLoopChunks_pos _ _ (by norm_num),
      show (904 : Nat) - 4096 = 0 from by norm_num,
      List.tail_cons, List.headD_cons, readLoopChunks_zero, List.append_nil]
  refine ⟨?_, ?_, ?_⟩
  · rw [hc, List.length_append, List.length_replicate]
  · rw [hc, List.length_append, List.length_replicate]
    norm_num
  · simp only [shortReadChunks, List.map_cons, List.map_nil,
      List.length_replicate]

/-- C2: `send` followed by `receive` on the same framed byte stream returns
exactly the payload that was sent, for every payload that fits the 4-byte
length prefix — in particular both when the payload is at most 4096 bytes
(single `recv(size)`) and when it exceeds 4096 bytes (the chunked loop,
which over a quiescent stream holding exactly this frame accumulates
exactly the payload). The decoded message is a function of these bytes, so
the message round-trips unchanged. -/
theorem send_receive_roundtrip (p : List Nat) (h : p.length < 2 ^ 32) :
    readMessageBytes (sendMessageBytes p) = some p := by
  unfold readMessageBytes sendMessageBytes
  have hl : (lenBytes p.length).length = 4 := rfl
  simp only [List.length_append, hl]
  rw [if_neg (by omega)]
  rw [show (4 : Nat) = (lenBytes p.length).length from hl.symm, List.take_left,
    List.drop_left]
  rw [unpackBE_lenBytes _ h]
  split
  · rw [readLoopStream_of_le _ _ le_rfl]
  · rw [List.take_length]

/-- Witness for C2 at a concrete small (10-byte) and large (5000-byte)
payload. -/
theorem send_receive_roundtrip_witness :
    ((List.replicate 10 97 : List Nat).length < 2 ^ 32 ∧
        readMessageBytes (sendMessageBytes (List.replicate 10 97)) =
          some (List.replicate 10 97)) ∧
      ((List.replicate 5000 65 : List Nat).length < 2 ^ 32 ∧
        readMessageBytes (sendMessageBytes (List.replicate 5000 65)) =
          some (List.replicate 5000 65)) :=
  ⟨⟨by rw [List.length_replicate]; norm_num,
      send_receive_roundtrip _ (by rw [List.length_replicate]; norm_num)⟩,
    ⟨by rw [List.length_replicate]; norm_num,
      send_receive_roundtrip _ (by rw [List.length_replicate]; norm_num)⟩⟩

/-! ### Message parsing (`authenticate.py`, `parse_message`)

Python dicts are embedded as association lists whose keys are distinct;
`list(message)` is the key list in insertion order.
-/

/-- `parse_message`: raise `IndexError` (the explicit `raise` when
`len(keys) > 1`, and the out-of-range `keys[0]` when the dict is empty),
otherwise return `(variant, message[variant])`; with a single binding
`message[keys[0]]` is that binding's value. -/
def parse_message {α : Type} (message : List (String × α)) :
    Except Unit (String × α) :=
  if 1 < (message.map Prod.fst).length then Except.error ()
  else
    match message with
    | [] => Except.error ()
    | (k, v) :: _ => Except.ok (k, v)

/-- C3: a message with exactly one top-level key parses to
`(key, message[key])`; a message with zero or two-or-more keys raises
`IndexError` and never returns a pair. -/
theorem parse_message_spec {α : Type} (message : List (String × α)) :
    (∀ k v, message = [(k, v)] → parse_message message = Except.ok (k, v)) ∧
      (message.length ≠ 1 → parse_message message = Except.error ()) := by
  constructor
  · rintro k v rfl
    rfl
  · intro h
    match message with
    | [] => rfl
    | [x] => exact absurd rfl h
    | x :: y :: rest =>
      simp only [parse_message, List.map_cons, List.length_cons]
      rw [if_pos (by omega)]

/-- Witness for C3: a singleton message parses to its key/value pair; the
empty message is an error. -/
theorem parse_message_spec_witness :
    parse_message [("a", (1 : Nat))] = Except.ok ("a", 1) ∧
      parse_message ([] : List (String × Nat)) = Except.error () :=
  ⟨(parse_message_spec _).1 "a" 1 rfl, (parse_message_spec _).2 (by simp)⟩

/-! ### Job negotiation policy (`client/job_config.py`) -/

/-- A job offer (the `job_config` dict sent by the DCL); each of the three
required fields is `none` when its key is absent from the dict. -/
structure Offer where
  message_creation_timestamp : Option Int
  prediction_cutoff_timestamp : Option Int
  prediction_type : Option String

/-- The `JobConfig` instance state: allowed prediction types, the timeout in
minutes, and the optional user comparison function
(`self.comparison_function`, `None` unless `set_comparison_function` ran). -/
structure JobConfig where
  prediction_types : List String
  max_timeout : Int
  comparison_function : Option (Offer → Bool)

/-- Python's `str.lower()` (on the ASCII strings these claims involve):
lowercase each character. -/
def pyLower (s : String) : String :=
  ⟨s.data.map Char.toLower⟩

/-- `all(field in job_config for field in expected_fields)` over the three
expected fields. -/
def hasRequiredFields (offer : Offer) : Bool :=
  offer.message_creation_timestamp.isSome &&
    offer.prediction_cutoff_timestamp.isSome &&
    offer.prediction_type.isSome

/-- `JobConfig.compare`: reject a malformed offer; else delegate to the user
comparison function when set; else accept iff the cutoff-minus-creation
difference is at most `max_timeout * 60` seconds and the offer's
`prediction_type.lower()` is `in self.prediction_types`. -/
def JobConfig.compare (config : JobConfig) (job_config : Offer) : Bool :=
  if !hasRequiredFields job_config then false
  else
    match config.comparison_function with
    | some f => f job_config
    | none =>
      let mct := job_config.message_creation_timestamp.getD 0
      let pct := job_config.prediction_cutoff_timestamp.getD 0
      let ptype := pyLower (job_config.prediction_type.getD "")
      decide (pct - mct ≤ config.max_timeout * 60) &&
        config.prediction_types.contains ptype

/-- Case-insensitive membership, the reading in which both the offer's type
and the configured entries are compared up to case. -/
def caseInsensitiveMember (t : String) (types : List String) : Bool :=
  types.any (fun s => pyLower s == pyLower t)

/-- C6 counterexample: with allowed types `["Regression"]`, timeout 10, no
custom predicate, and an offer of type `"Regression"` created at 0 with
cutoff 300: the elapsed time is within the timeout and the offer's type is
case-insensitively a member of the configured set, yet `compare` rejects —
only the offer's side is lowercased, the configured entries are matched
exactly. -/
theorem compare_case_counterexample :
    hasRequiredFields ⟨some 0, some 300, some "Regression"⟩ = true ∧
      ((300 : Int) - 0 ≤ 10 * 60) ∧
      caseInsensitiveMember "Regression" ["Regression"] = true ∧
      JobConfig.compare ⟨["Regression"], 10, none⟩
        ⟨some 0, some 300, some "Regression"⟩ = false := by
  refine ⟨rfl, by norm_num, ?_, ?_⟩ <;> decide

/-- C6 (amended): with all three fields present and no custom predicate,
`compare` accepts iff the cutoff-minus-creation difference is at most
`max_timeout * 60` seconds and the offer's `prediction_type`, lowercased, is
literally a member of the configured allowed-types list (configured entries
are not case-folded). -/
theorem compare_default_policy (config : JobConfig) (offer : Offer)
    (mct pct : Int) (ptype : String)
    (hm : offer.message_creation_timestamp = some mct)
    (hp : offer.prediction_cutoff_timestamp = some pct)
    (ht : offer.prediction_type = some ptype)
    (hf : config.comparison_function = none) :
    JobConfig.compare config offer = true ↔
      (pct - mct ≤ config.max_timeout * 60 ∧
        pyLower ptype ∈ config.prediction_types) := by
  unfold JobConfig.compare
  simp [hasRequiredFields, hm, hp, ht, hf, List.elem_iff]

/-- Witness for C6 (amended), at the spec's own example: allowed types
`["regression"]`, timeout 10, offer of type `"regression"` with elapsed
time 300 seconds — accepted. -/
theorem compare_default_policy_witness :
    JobConfig.compare ⟨["regression"], 10, none⟩
      ⟨some 0, some 300, some "regression"⟩ = true :=
  (compare_default_policy _ _ 0 300 "regression" rfl rfl rfl rfl).mpr
    ⟨by norm_num, by decide⟩

/-- C7: an offer missing any required field is rejected before the custom
predicate is consulted; with all fields present and a custom predicate
installed, `compare` returns exactly the predicate's result. -/
theorem compare_guard_and_delegate (config : JobConfig) (offer : Offer) :
    (hasRequiredFields offer = false → JobConfig.compare config offer = false) ∧
      (∀ f, config.comparison_function = some f → hasRequiredFields offer = true →
        JobConfig.compare config offer = f offer) := by
  constructor
  · intro h
    unfold JobConfig.compare
    simp [h]
  · intro f hf h
    unfold JobConfig.compare
    simp [h, hf]

/-- Witness for C7: an offer with no `prediction_type` is rejected even
though a custom always-accept predicate is installed; a complete offer with
an always-accept predicate is accepted although the default logic would
reject it (type `"x"` is not in the empty allowed list). -/
theorem compare_guard_and_delegate_witness :
    JobConfig.compare ⟨["regression"], 10, some (fun _ => true)⟩
        ⟨some 0, some 300, none⟩ = false ∧
      JobConfig.compare ⟨[], 0, some (fun _ => true)⟩
        ⟨some 0, some 300, some "x"⟩ = true :=
  ⟨(compare_guard_and_delegate _ _).1 rfl,
    (compare_guard_and_delegate _ _).2 (fun _ => true) rfl rfl⟩

/-! ### Dataset preparation (`sybl_client.py`, `prepare_datasets`) -/

/-- A pandas `DataFrame`, column-oriented: (column name, column values)
pairs in column order, each values list in row order. -/
structure DataFrame where
  cols : List (String × List Int)

/-- `"record_id" in df.columns`. -/
def hasColumn (df : DataFrame) (name : String) : Bool :=
  df.cols.any (fun c => c.1 == name)

/-- `df.drop([name], axis=1)`: remove the labelled column. -/
def dropColumn (df : DataFrame) (name : String) : DataFrame :=
  ⟨df.cols.filter (fun c => c.1 != name)⟩

/-- `df[name].tolist()`: the labelled column's values in row order; `none`
is the `KeyError` raised when the label is missing. -/
def getColumn (df : DataFrame) (name : String) : Option (List Int) :=
  df.cols.lookup name

/-- `prepare_datasets`: if the training table has a `record_id` column, drop
it, take the prediction table's `record_id` values (`KeyError` when that
column is missing) and drop that column too; otherwise raise
`AttributeError("Datasets must have record ids for each row")`. -/
def prepare_datasets (train prediction : DataFrame) :
    Except String (DataFrame × DataFrame × List Int) :=
  if hasColumn train "record_id" then
    match getColumn prediction "record_id" with
    | some predict_rids =>
        Except.ok (dropColumn train "record_id",
          dropColumn prediction "record_id", predict_rids)
    | none => Except.error "KeyError"
  else Except.error "AttributeError"

theorem any_filter_ne_key (l : List (String × List Int)) (name : String) :
    (l.filter (fun c => c.1 != name)).any (fun c => c.1 == name) = false := by
  induction l with
  | nil => rfl
  | cons c rest ih =>
    by_cases h : c.1 = name
    · simp [List.filter_cons, h, ih]
    · simp [List.filter_cons, h, ih]

theorem hasColumn_dropColumn (df : DataFrame) (name : String) :
    hasColumn (dropColumn df name) name = false := by
  unfold hasColumn dropColumn
  exact any_filter_ne_key df.cols name

theorem hasColumn_eq_isSome (df : DataFrame) (name : String) :
    hasColumn df name = (getColumn df name).isSome := by
  unfold hasColumn getColumn
  induction df.cols with
  | nil => rfl
  | cons c rest ih =>
    obtain ⟨k, v⟩ := c
    by_cases h : k = name
    · subst h
      simp [List.lookup]
    · have hk : (k == name) = false := by simpa using h
      have hn : (name == k) = false := by simpa using Ne.symm h
      simp [List.lookup, hk, hn, ih]

/-- C9: when both tables have a `record_id` column, `prepare_datasets`
succeeds, neither returned table has a `record_id` column, and the returned
id sequence is exactly the prediction table's `record_id` column (hence in
original row order); when either table lacks the column, it raises
(`AttributeError` for the training table, `KeyError` for the prediction
table) rather than passing the data through. -/
theorem prepare_datasets_spec (train prediction : DataFrame) :
    (∀ predict_rids, hasColumn train "record_id" = true →
      getColumn prediction "record_id" = some predict_rids →
      prepare_datasets train prediction =
          Except.ok (dropColumn train "record_id",
            dropColumn prediction "record_id", predict_rids) ∧
        hasColumn (dropColumn train "record_id") "record_id" = false ∧
        hasColumn (dropColumn prediction "record_id") "record_id" = false) ∧
      (hasColumn train "record_id" = false ∨
          hasColumn prediction "record_id" = false →
        ∃ e, prepare_datasets train prediction = Except.error e) := by
  constructor
  · intro rids ht hp
    refine ⟨?_, hasColumn_dropColumn _ _, hasColumn_dropColumn _ _⟩
    unfold prepare_datasets
    rw [if_pos (by rw [ht]), hp]
  · rintro (h | h)
    · refine ⟨"AttributeError", ?_⟩
      unfold prepare_datasets
      rw [if_neg (by rw [h]; exact Bool.false_ne_true)]
    · by_cases ht : hasColumn train "record_id" = true
      · have hnone : getColumn prediction "record_id" = none := by
          have hh := hasColumn_eq_isSome prediction "record_id"
          rw [h] at hh
          exact Option.not_isSome_iff_eq_none.mp
            (by rw [← hh]; exact Bool.false_ne_true)
        refine ⟨"KeyError", ?_⟩
        unfold prepare_datasets
        rw [if_pos ht, hnone]
      · exact ⟨"AttributeError", by
          unfold prepare_datasets
          rw [if_neg ht]⟩

/-- Witness for C9: a concrete pair of tables with `record_id` columns is
prepared (ids `[3, 4]` extracted in row order, column dropped from both);
a training table without the column errors. -/
theorem prepare_datasets_spec_witness :
    prepare_datasets ⟨[("record_id", [1, 2]), ("x", [10, 20])]⟩
        ⟨[("record_id", [3, 4]), ("y", [30, 40])]⟩ =
      Except.ok (⟨[("x", [10, 20])]⟩, ⟨[("y", [30, 40])]⟩, [3, 4]) ∧
      ∃ e, prepare_datasets ⟨[("x", [1])]⟩ ⟨[("record_id", [2])]⟩ =
        Except.error e :=
  ⟨((prepare_datasets_spec ⟨[("record_id", [1, 2]), ("x", [10, 20])]⟩
        ⟨[("record_id", [3, 4]), ("y", [30, 40])]⟩).1 [3, 4] rfl rfl).1,
    (prepare_datasets_spec ⟨[("x", [1])]⟩ ⟨[("record_id", [2])]⟩).2
      (Or.inl rfl)⟩

/-! ### Credential store (`authenticate.py`, `Authentication.save_access_tokens`) -/

/-- One stored credential:
`{"model_id": self.model_id, "access_token": self.access_token}` (both
fields are `Optional` on the instance). -/
structure Credential where
  model_id : Option String
  access_token : Option String
deriving DecidableEq

/-- The `sybl.json` store file on disk. -/
inductive StoreFile
  | absent
  | emptyFile
  | stored (entries : List (String × Credential))

/-- The read side of `save_access_tokens`: after `mkdir`/`touch`,
`json.loads(contents if contents else "{}")` reads an absent or empty file
as the empty object. A present JSON object is embedded as its parsed
association list (distinct keys, insertion order). -/
def readStore : StoreFile → List (String × Credential)
  | StoreFile.absent => []
  | StoreFile.emptyFile => []
  | StoreFile.stored entries => entries

/-- `json_contents[key_name] = new_model` on a dict embedded as an
association list with distinct keys: replace the binding when the key is
present, else append it. -/
def setKey (entries : List (String × Credential)) (key : String)
    (v : Credential) : List (String × Credential) :=
  if entries.any (fun e => e.1 == key) then
    entries.map (fun e => if e.1 = key then (key, v) else e)
  else entries ++ [(key, v)]

/-- `save_access_tokens`: ensure the directory and file exist, read the
store, bind `"{email}.{model_name}"` to the new credential, and write the
result back — so the store file is always present and written afterwards. -/
def save_access_tokens (file : StoreFile) (email model_name : String)
    (model_id access_token : Option String) : StoreFile :=
  StoreFile.stored
    (setKey (readStore file) (email ++ "." ++ model_name)
      ⟨model_id, access_token⟩)

theorem lookup_map_set (l : List (String × Credential)) (key : String)
    (v : Credential) :
    (l.map (fun e => if e.1 = key then (key, v) else e)).lookup key =
      if l.any (fun e => e.1 == key) then some v else none := by
  induction l with
  | nil => rfl
  | cons e rest ih =>
    obtain ⟨k1, w⟩ := e
    by_cases hk : k1 = key
    · subst hk
      simp [List.lookup_cons]
    · have hne : (key == k1) = false := by simpa using Ne.symm hk
      have hk1 : (k1 == key) = false := by simpa using hk
      simp only [List.map_cons, if_neg hk, List.any_cons, hk1, Bool.false_or,
        List.lookup_cons, hne, ih]

theorem lookup_map_preserve (l : List (String × Credential)) (key k : String)
    (v : Credential) (h : k ≠ key) :
    (l.map (fun e => if e.1 = key then (key, v) else e)).lookup k =
      l.lookup k := by
  induction l with
  | nil => rfl
  | cons e rest ih =>
    obtain ⟨k1, w⟩ := e
    by_cases hk : k1 = key
    · subst hk
      have hkey : (k == k1) = false := by simpa using h
      simp [List.lookup_cons, hkey, ih]
    · by_cases hkk : k1 = k
      · subst hkk
        simp [List.lookup_cons, hk]
      · have hk1 : (k == k1) = false := by simpa using Ne.symm hkk
        simp [List.lookup_cons, hk, hk1, ih]

theorem lookup_append_new (l : List (String × Credential)) (key : String)
    (v : Credential) (h : l.any (fun e => e.1 == key) = false) :
    (l ++ [(key, v)]).lookup key = some v := by
  induction l with
  | nil => simp [List.lookup]
  | cons e rest ih =>
    obtain ⟨k1, w⟩ := e
    rw [List.any_cons] at h
    obtain ⟨h1, h2⟩ := Bool.or_eq_false_iff.mp h
    have hne : (key == k1) = false := by
      have : k1 ≠ key := by simpa using h1
      simpa using Ne.symm this
    simp [List.lookup, hne, ih h2]

theorem lookup_append_preserve (l : List (String × Credential)) (key k : String)
    (v : Credential) (h : k ≠ key) :
    (l ++ [(key, v)]).lookup k = l.lookup k := by
  induction l with
  | nil => simp [List.lookup, show (k == key) = false from by simpa using h]
  | cons e rest ih =>
    obtain ⟨k1, w⟩ := e
    by_cases hkk : k1 = k
    · simp [List.lookup, hkk]
    · have hk1 : (k == k1) = false := by simpa using Ne.symm hkk
      simp [List.lookup, hk1, ih]

theorem lookup_setKey_self (entries : List (String × Credential))
    (key : String) (v : Credential) :
    (setKey entries key v).lookup key = some v := by
  unfold setKey
  split
  · next hany => rw [lookup_map_set, if_pos hany]
  · next hany => exact lookup_append_new entries key v (Bool.eq_false_iff.mpr hany)

theorem lookup_setKey_other (entries : List (String × Credential))
    (key k : String) (v : Credential) (h : k ≠ key) :
    (setKey entries key v).lookup k = entries.lookup k := by
  unfold setKey
  split
  · exact lookup_map_preserve entries key k v h
  · exact lookup_append_preserve entries key k v h

/-- C8: saving a credential is a read-merge-write: the result is a present,
written store that maps `"{email}.{model_name}"` to the new credential,
preserves every other key's binding, and treats an absent or empty file as
the empty object. -/
theorem save_access_tokens_spec (file : StoreFile) (email model_name : String)
    (model_id access_token : Option String) :
    save_access_tokens file email model_name model_id access_token =
        StoreFile.stored (setKey (readStore file) (email ++ "." ++ model_name)
          ⟨model_id, access_token⟩) ∧
      (setKey (readStore file) (email ++ "." ++ model_name)
          ⟨model_id, access_token⟩).lookup (email ++ "." ++ model_name) =
        some ⟨model_id, access_token⟩ ∧
      (∀ k, k ≠ email ++ "." ++ model_name →
        (setKey (readStore file) (email ++ "." ++ model_name)
            ⟨model_id, access_token⟩).lookup k = (readStore file).lookup k) ∧
      readStore StoreFile.absent = [] ∧ readStore StoreFile.emptyFile = [] :=
  ⟨rfl, lookup_setKey_self _ _ _,
    fun k hk => lookup_setKey_other _ _ k _ hk, rfl, rfl⟩

/-- Witness for C8: saving into a store holding an unrelated key appends the
new `"user@mail.model"` binding and leaves the other entry's lookup
unchanged. -/
theorem save_access_tokens_spec_witness :
    save_access_tokens (StoreFile.stored [("other", ⟨some "m1", some "t1"⟩)])
        "user@mail" "model" (some "id2") (some "tok2") =
      StoreFile.stored [("other", ⟨some "m1", some "t1"⟩),
        ("user@mail.model", ⟨some "id2", some "tok2"⟩)] ∧
      (setKey (readStore (StoreFile.stored [("other", ⟨some "m1", some "t1"⟩)]))
          ("user@mail" ++ "." ++ "model") ⟨some "id2", some "tok2"⟩).lookup
        "other" = some ⟨some "m1", some "t1"⟩ :=
  ⟨(save_access_tokens_spec (StoreFile.stored [("other", ⟨some "m1", some "t1"⟩)])
      "user@mail" "model" (some "id2") (some "tok2")).1,
    (save_access_tokens_spec (StoreFile.stored [("other", ⟨some "m1", some "t1"⟩)])
        "user@mail" "model" (some "id2") (some "tok2")).2.2.1 "other" (by decide)⟩

/-! ### Client session state machine (`sybl_client.py`, class `Sybl`) -/

/-- The `State` enum. -/
inductive State
  | AUTHENTICATING
  | HEARTBEAT
  | READ_JOB
  | PROCESSING
deriving DecidableEq

/-- A buffered incoming message, classified by its top-level variant key
exactly as `_message_control` classifies it (`"Alive" in response`,
`"JobConfig" in response`, `"Dataset" in response`). -/
inductive StackMessage
  | alive
  | jobConfig (offer : Offer)
  | dataset (train predict : String)

/-- An outgoing message relevant to these claims. -/
inductive OutMessage
  | configResponse (accept : Bool)
  | predictions (payload : String)

/-- The mutable `Sybl` client state that the session loop touches. -/
structure ClientState where
  state : State
  message_stack : List StackMessage
  recv_job_config : Option Offer
  config : JobConfig
  sent : List OutMessage

/-- `Sybl._process_job_config`: pop the stack (an empty stack is logged and
sends the machine back to HEARTBEAT); a popped message without the
`JobConfig` variant is logged and sends the machine back to HEARTBEAT;
otherwise run the negotiation policy, send `ConfigResponse{accept}`,
remember the offer only when accepted, and return to HEARTBEAT. -/
def processJobConfig (cs : ClientState) : ClientState :=
  match cs.message_stack with
  | [] => { cs with state := State.HEARTBEAT }
  | top :: rest =>
    match top with
    | StackMessage.jobConfig offer =>
      if JobConfig.compare cs.config offer then
        { cs with message_stack := rest,
                  sent := cs.sent ++ [OutMessage.configResponse true],
                  recv_job_config := some offer,
                  state := State.HEARTBEAT }
      else
        { cs with message_stack := rest,
                  sent := cs.sent ++ [OutMessage.configResponse false],
                  state := State.HEARTBEAT }
    | _ => { cs with message_stack := rest, state := State.HEARTBEAT }

/-- `Sybl._process_job`: `data = self._message_stack.pop()` raises
`IndexError` on an empty stack, and `assert "Dataset" in data` raises
`AssertionError` on a popped message without the `Dataset` variant — both
propagate out of `_begin_state_machine`. The successful continuation
(decompression, pandas, the user callback and the `Predictions` send) is
abstracted as the `handleDataset` argument, applied to the popped state and
the two encoded tables. -/
def processJob
    (handleDataset : ClientState → String → String → Except String ClientState)
    (cs : ClientState) : Except String ClientState :=
  match cs.message_stack with
  | [] => Except.error "IndexError"
  | top :: rest =>
    match top with
    | StackMessage.dataset train predict =>
        handleDataset { cs with message_stack := rest } train predict
    | _ => Except.error "AssertionError"

/-- `Sybl._is_authenticated` on the decoded reply: true iff the reply's
`"message"` entry equals `"Authentication successful"`; a missing key is
caught (`except KeyError`) and yields false. -/
def is_authenticated (reply : List (String × String)) : Bool :=
  match reply.lookup "message" with
  | some text => text == "Authentication successful"
  | none => false

/-- The authentication step of `Sybl.connect`: when `_is_authenticated`
fails, `PermissionError` aborts the session; otherwise the state becomes
HEARTBEAT and the main loop is entered. -/
def connectAuth (reply : List (String × String)) : Except String State :=
  if is_authenticated reply then Except.ok State.HEARTBEAT
  else Except.error "PermissionError"

/-- C4 counterexample: in the PROCESSING consumer an empty pending stack is
fatal (`IndexError` from `pop()` on an empty list) and a popped non-Dataset
message is fatal (`AssertionError` from `assert "Dataset" in data`): neither
is logged and recovered to HEARTBEAT, refuting the claim that both consumers
recover. The always-succeeding continuation stands in for the unreached
dataset processing. -/
theorem processJob_fatal_counterexample :
    processJob (fun cs _ _ => Except.ok { cs with state := State.HEARTBEAT })
        ⟨State.PROCESSING, [], none, ⟨["regression"], 10, none⟩, []⟩ =
      Except.error "IndexError" ∧
      processJob (fun cs _ _ => Except.ok { cs with state := State.HEARTBEAT })
        ⟨State.PROCESSING, [StackMessage.alive], none,
          ⟨["regression"], 10, none⟩, []⟩ =
      Except.error "AssertionError" :=
  ⟨rfl, rfl⟩

/-- C4 (amended): only the READ_JOB consumer (`_process_job_config`) treats
an empty pending stack and a non-`JobConfig` pop as recoverable returns to
HEARTBEAT; the PROCESSING consumer (`_process_job`) pops unconditionally,
raising `IndexError` on an empty stack, and asserts the `Dataset` variant,
raising `AssertionError` on a mismatch — both fatal. -/
theorem process_failure_semantics (cs : ClientState)
    (hd : ClientState → String → String → Except String ClientState) :
    (cs.message_stack = [] →
      processJobConfig cs = { cs with state := State.HEARTBEAT }) ∧
      (cs.message_stack = [] → processJob hd cs = Except.error "IndexError") ∧
      (∀ top rest, cs.message_stack = top :: rest →
        (∀ offer, top ≠ StackMessage.jobConfig offer) →
        processJobConfig cs =
          { cs with message_stack := rest, state := State.HEARTBEAT }) ∧
      (∀ top rest, cs.message_stack = top :: rest →
        (∀ t p, top ≠ StackMessage.dataset t p) →
        processJob hd cs = Except.error "AssertionError") := by
  refine ⟨?_, ?_, ?_, ?_⟩
  · intro h
    unfold processJobConfig
    rw [h]
  · intro h
    unfold processJob
    rw [h]
  · intro top rest h hne
    unfold processJobConfig
    rw [h]
    cases top with
    | alive => rfl
    | jobConfig offer => exact absurd rfl (hne offer)
    | dataset t p => rfl
  · intro top rest h hne
    unfold processJob
    rw [h]
    cases top with
    | alive => rfl
    | jobConfig offer => rfl
    | dataset t p => exact absurd rfl (hne t p)

/-- Witness for C4 (amended), at concrete states: READ_JOB recovers to
HEARTBEAT on an empty stack and on an `Alive` pop; PROCESSING raises on
both. -/
theorem process_failure_semantics_witness :
    processJobConfig ⟨State.READ_JOB, [], none, ⟨["regression"], 10, none⟩, []⟩ =
        ⟨State.HEARTBEAT, [], none, ⟨["regression"], 10, none⟩, []⟩ ∧
      processJob (fun cs _ _ => Except.ok cs)
          ⟨State.PROCESSING, [], none, ⟨["regression"], 10, none⟩, []⟩ =
        Except.error "IndexError" ∧
      processJobConfig ⟨State.READ_JOB, [StackMessage.alive], none,
          ⟨["regression"], 10, none⟩, []⟩ =
        ⟨State.HEARTBEAT, [], none, ⟨["regression"], 10, none⟩, []⟩ ∧
      processJob (fun cs _ _ => Except.ok cs)
          ⟨State.PROCESSING, [StackMessage.alive], none,
            ⟨["regression"], 10, none⟩, []⟩ =
        Except.error "AssertionError" :=
  ⟨(process_failure_semantics _ (fun cs _ _ => Except.ok cs)).1 rfl,
    (process_failure_semantics _ (fun cs _ _ => Except.ok cs)).2.1 rfl,
    (process_failure_semantics _ (fun cs _ _ => Except.ok cs)).2.2.1
      StackMessage.alive [] rfl (fun _ h => StackMessage.noConfusion h),
    (process_failure_semantics _ (fun cs _ _ => Except.ok cs)).2.2.2
      StackMessage.alive [] rfl (fun _ _ h => StackMessage.noConfusion h)⟩

/-- C5 counterexample: the code compares the reply's status text with
`"Authentication successful"` (capital A), not `"authentication successful"`
as claimed: a reply whose status text is exactly the claimed lowercase
string aborts with `PermissionError`, while the capitalised text enters
HEARTBEAT. -/
theorem connectAuth_case_counterexample :
    List.lookup "message" [("message", "authentication successful")] =
        some "authentication successful" ∧
      connectAuth [("message", "authentication successful")] =
        Except.error "PermissionError" ∧
      connectAuth [("message", "Authentication successful")] =
        Except.ok State.HEARTBEAT :=
  ⟨rfl, rfl, rfl⟩

/-- C5 (amended): after sending the access token, the client enters
HEARTBEAT iff the reply's `"message"` text equals exactly
`"Authentication successful"`; any other reply (different text, or no
`"message"` key) aborts with `PermissionError` before the main loop, with no
retry. -/
theorem connectAuth_spec (reply : List (String × String)) :
    (connectAuth reply = Except.ok State.HEARTBEAT ↔
      reply.lookup "message" = some "Authentication successful") ∧
      (reply.lookup "message" ≠ some "Authentication successful" →
        connectAuth reply = Except.error "PermissionError") := by
  unfold connectAuth is_authenticated
  cases h : reply.lookup "message" with
  | none => simp [h]
  | some text =>
    by_cases ht : text = "Authentication successful"
    · subst ht
      simp [h]
    · simp [h, ht]

/-- Witness for C5 (amended): a reply with a different status text is
aborted with `PermissionError`. -/
theorem connectAuth_spec_witness :
    connectAuth [("message", "nope")] = Except.error "PermissionError" :=
  (connectAuth_spec _).2 (by decide)

/-- C10: when the buffered offer is rejected by the negotiation policy the
client sends `ConfigResponse{accept: false}`, `recv_job_config` keeps its
previous value, and the machine returns to HEARTBEAT; only an accepted offer
overwrites `recv_job_config`. -/
theorem processJobConfig_reject_frame (cs : ClientState) (offer : Offer)
    (rest : List StackMessage)
    (hstack : cs.message_stack = StackMessage.jobConfig offer :: rest) :
    (JobConfig.compare cs.config offer = false →
      (processJobConfig cs).recv_job_config = cs.recv_job_config ∧
        (processJobConfig cs).sent =
          cs.sent ++ [OutMessage.configResponse false] ∧
        (processJobConfig cs).state = State.HEARTBEAT) ∧
      (JobConfig.compare cs.config offer = true →
        (processJobConfig cs).recv_job_config = some offer) := by
  have hred : processJobConfig cs =
      if JobConfig.compare cs.config offer then
        { cs with message_stack := rest,
                  sent := cs.sent ++ [OutMessage.configResponse true],
                  recv_job_config := some offer,
                  state := State.HEARTBEAT }
      else
        { cs with message_stack := rest,
                  sent := cs.sent ++ [OutMessage.configResponse false],
                  state := State.HEARTBEAT } := by
    unfold processJobConfig
    rw [hstack]
  constructor
  · intro h
    rw [hred, if_neg (by rw [h]; exact Bool.false_ne_true)]
    exact ⟨rfl, rfl, rfl⟩
  · intro h
    rw [hred, if_pos h]

/-- Witness for C10: a remembered offer from a previous acceptance survives
the rejection of a later malformed offer, and an accepted offer replaces
it. -/
theorem processJobConfig_reject_frame_witness :
    (processJobConfig ⟨State.READ_JOB,
          [StackMessage.jobConfig ⟨none, none, none⟩],
          some ⟨some 0, some 300, some "regression"⟩,
          ⟨["regression"], 10, none⟩, []⟩).recv_job_config =
        some ⟨some 0, some 300, some "regression"⟩ ∧
      (processJobConfig ⟨State.READ_JOB,
          [StackMessage.jobConfig ⟨some 0, some 60, some "regression"⟩],
          some ⟨some 0, some 300, some "regression"⟩,
          ⟨["regression"], 10, none⟩, []⟩).recv_job_config =
        some ⟨some 0, some 60, some "regression"⟩ :=
  ⟨((processJobConfig_reject_frame _ ⟨none, none, none⟩ [] rfl).1 rfl).1,
    (processJobConfig_reject_frame _ ⟨some 0, some 60, some "regression"⟩ []
      rfl).2 rfl⟩

end SyblVerify
